import Mathlib

/-!
Shallow embedding of the provisioning engine of xivo-provisioning and proofs
about it. Definitions are translated from the Python source files under
`provd/` (mainly `provd/app.py`, `provd/download.py`,
`provd/rest/server/server.py`); the few parts of the engine whose source is
absent (the reader/writer lock of `provd/synchro.py` and
`needs_reconfiguration` of `provd/devices/device.py`) are modelled from the
specification and marked as such in their doc comments.
-/

namespace Provd

/-! ### Document model

Persisted entities are open key/value documents (Python dictionaries with
unicode-string keys). We embed a document as an association list from keys to
JSON-like values; lookups return the first binding of a key, matching the
at-most-one-binding discipline of Python dictionaries. -/

/-- JSON-like values stored in documents. -/
inductive Val where
  | str (s : String)
  | num (n : Int)
  | bool (b : Bool)
  | obj (fields : List (String × Val))
deriving Repr, Inhabited

mutual

/-- Structural equality of values (Python `==` on JSON-like data). -/
def Val.beq : Val → Val → Bool
  | .str a, .str b => a == b
  | .num a, .num b => a == b
  | .bool a, .bool b => a == b
  | .obj a, .obj b => Val.beqFields a b
  | _, _ => false

/-- Structural equality of field lists. -/
def Val.beqFields : List (String × Val) → List (String × Val) → Bool
  | [], [] => true
  | (k, v) :: r, (k', v') :: r' => k == k' && Val.beq v v' && Val.beqFields r r'
  | _, _ => false

end

/-- Python `==` on optional values (used for `doc.get(k)` comparisons). -/
def beqOptVal : Option Val → Option Val → Bool
  | none, none => true
  | some a, some b => Val.beq a b
  | _, _ => false

/-- A document: an association list of string keys to values. -/
abbrev Doc := List (String × Val)

/-- First binding of key `k` in `doc` (Python `doc.get(k)` / `doc[k]`). -/
def lookup (doc : Doc) (k : String) : Option Val :=
  match doc with
  | [] => none
  | (k', v) :: rest => if k' = k then some v else lookup rest k

/-- Python `k in doc`. -/
def hasKey (doc : Doc) (k : String) : Bool :=
  (lookup doc k).isSome

/-- Python truthiness of an optional value (`doc.get(k)` used as a condition):
`None`, empty strings, zero, `False` and empty mappings are falsy. -/
def truthy : Option Val → Bool
  | none => false
  | some (.str s) => s != ""
  | some (.num n) => n != 0
  | some (.bool b) => b
  | some (.obj fields) => !fields.isEmpty

/-- Python `doc.setdefault(k, v)`: keep the document unchanged when `k` is
present, otherwise add the binding `(k, v)`. -/
def setdefault (doc : Doc) (k : String) (v : Val) : Doc :=
  if hasKey doc k then doc else doc ++ [(k, v)]

/-- Python `doc[k] = v`: replace the binding of `k` in place, or add it. -/
def setKey (doc : Doc) (k : String) (v : Val) : Doc :=
  match doc with
  | [] => [(k, v)]
  | (k', v') :: rest => if k' = k then (k, v) :: rest else (k', v') :: setKey rest k v

/-- View a value as a mapping. The Python source iterates such values with
`.iteritems()` / `.itervalues()`, which fails on non-mappings; we return an
error in that case. -/
def asObj : Val → Except String (List (String × Val))
  | .obj fields => .ok fields
  | _ => .error "value is not a mapping"

/-! ### Raw-config validation (`provd/app.py`, `_check_raw_config_validity`) -/

/-- Loop of `_check_common_raw_config_validity`: require each listed parameter
to be present. -/
def checkParamsPresent (rc : Doc) : List String → Except String Unit
  | [] => .ok ()
  | p :: ps =>
    if hasKey rc p then checkParamsPresent rc ps
    else .error ("missing " ++ p ++ " parameter")

/-- Translation of `_check_common_raw_config_validity`. -/
def checkCommonRawConfigValidity (rc : Doc) : Except String Unit :=
  checkParamsPresent rc ["ip", "http_port", "tftp_port"]

/-- Pattern `if raw_config.get(flag): if key not in raw_config: raise`. -/
def requireIf (cond : Bool) (present : Bool) (msg : String) : Except String Unit :=
  if cond && !present then .error msg else .ok ()

/-- Inner loop requiring `username`, `password` and `display_name` on a SIP
line (in source order). -/
def requireLineParams (line : List (String × Val)) (lineNo : String) :
    List String → Except String Unit
  | [] => .ok ()
  | p :: ps =>
    if hasKey line p then requireLineParams line lineNo ps
    else .error ("missing " ++ p ++ " parameter for line " ++ lineNo)

/-- Loop over the `sip_lines` entries of `_check_raw_config_validity`. Note
that the protocol test of the source reads the top-level
`raw_config[u'protocol']`, not the protocol of the line. -/
def checkSipLines (rc : Doc) : List (String × Val) → Except String Unit
  | [] => .ok ()
  | (lineNo, lineVal) :: rest => do
    let line ← asObj lineVal
    if !hasKey line "proxy_ip" && !hasKey rc "sip_proxy_ip" then
      .error ("missing proxy_ip parameter for line " ++ lineNo)
    else do
      (if hasKey rc "protocol" && beqOptVal (lookup rc "protocol") (some (.str "SIP")) then
        requireLineParams line lineNo ["username", "password", "display_name"]
      else .ok ())
      checkSipLines rc rest

/-- Loop over the `sccp_call_managers` entries. -/
def checkCallManagers : List (String × Val) → Except String Unit
  | [] => .ok ()
  | (priority, cmVal) :: rest => do
    let cm ← asObj cmVal
    if !hasKey cm "ip" then
      .error ("missing ip parameter for call manager " ++ priority)
    else
      checkCallManagers rest

/-- Loop over the `funckeys` entries. -/
def checkFunckeys : List (String × Val) → Except String Unit
  | [] => .ok ()
  | (funckeyNo, fkVal) :: rest => do
    let fk ← asObj fkVal
    match lookup fk "type" with
    | none => .error ("missing type parameter for funckey " ++ funckeyNo)
    | some type_ =>
      if (Val.beq type_ (.str "speeddial") || Val.beq type_ (.str "blf")) && !hasKey fk "value" then
        .error ("missing value parameter for funckey " ++ funckeyNo)
      else
        checkFunckeys rest

/-- Section of `_check_raw_config_validity` guarded by `u'sip_lines' in
raw_config`. -/
def checkSipLinesSection (rc : Doc) : Except String Unit :=
  match lookup rc "sip_lines" with
  | none => .ok ()
  | some v => do
    let lines ← asObj v
    checkSipLines rc lines

/-- Section guarded by `u'sccp_call_managers' in raw_config`. -/
def checkCallManagersSection (rc : Doc) : Except String Unit :=
  match lookup rc "sccp_call_managers" with
  | none => .ok ()
  | some v => do
    let cms ← asObj v
    checkCallManagers cms

/-- Section guarded by `u'funckeys' in raw_config`. -/
def checkFunckeysSection (rc : Doc) : Except String Unit :=
  match lookup rc "funckeys" with
  | none => .ok ()
  | some v => do
    let fks ← asObj v
    checkFunckeys fks

/-- Translation of `_check_raw_config_validity`: `.ok ()` when the function
returns normally, `.error msg` when it raises (`RawConfigError` or a type
error from iterating a non-mapping). -/
def checkRawConfigValidity (rc : Doc) : Except String Unit := do
  checkCommonRawConfigValidity rc
  requireIf (truthy (lookup rc "ntp_enabled")) (hasKey rc "ntp_ip")
    "missing ntp_ip parameter"
  requireIf (truthy (lookup rc "vlan_enabled")) (hasKey rc "vlan_id")
    "missing vlan_id parameter"
  requireIf (truthy (lookup rc "syslog_enabled")) (hasKey rc "syslog_ip")
    "missing syslog_ip parameter"
  checkSipLinesSection rc
  checkCallManagersSection rc
  checkFunckeysSection rc

/-! ### Raw-config defaults (`provd/app.py`, `_set_defaults_raw_config`) -/

/-- Per-line body of the `for line in raw_config[u'sip_lines'].itervalues()`
loop of `_set_defaults_raw_config`. -/
def setDefaultsLine (line : List (String × Val)) : List (String × Val) :=
  let line :=
    match lookup line "proxy_ip" with
    | some v => setdefault line "registrar_ip" v
    | none => line
  match lookup line "username" with
  | some v => setdefault line "auth_username" v
  | none => line

/-- Apply `setDefaultsLine` to a line value. Validation guarantees that line
values are mappings; other values are kept as-is. -/
def mapLine : Val → Val
  | .obj line => .obj (setDefaultsLine line)
  | v => v

/-- First statement group of `_set_defaults_raw_config`: syslog defaults. -/
def syslogDefaults (rc : Doc) : Doc :=
  if truthy (lookup rc "syslog_enabled") then
    setdefault (setdefault rc "syslog_port" (.num 514)) "level" (.str "warning")
  else rc

/-- Second statement group: `sip_registrar_ip` defaults to `sip_proxy_ip`
when the latter is present. -/
def registrarDefault (rc : Doc) : Doc :=
  match lookup rc "sip_proxy_ip" with
  | some v => setdefault rc "sip_registrar_ip" v
  | none => rc

/-- The `sip_lines` statement group: an absent `sip_lines` becomes the empty
mapping, otherwise each line gets its per-line defaults (the lines are
mappings for any raw config that passed validation; other values are kept
as-is). -/
def sipLinesDefaults (rc : Doc) : Doc :=
  match lookup rc "sip_lines" with
  | none => setKey rc "sip_lines" (.obj [])
  | some (.obj lines) =>
    setKey rc "sip_lines" (.obj (lines.map (fun p => (p.1, mapLine p.2))))
  | some _ => rc

/-- Translation of `_set_defaults_raw_config`: the statement sequence of the
source, applied in order. The Python function mutates `raw_config` in
place; we return the updated document. -/
def setDefaultsRawConfig (rc : Doc) : Doc :=
  setdefault
    (setdefault
      (sipLinesDefaults
        (setdefault
          (setdefault (registrarDefault (syslogDefaults rc))
            "sip_srtp_mode" (.str "disabled"))
          "sip_transport" (.str "udp")))
      "sccp_call_managers" (.obj []))
    "funckeys" (.obj [])

/-! ### Devices, plugins and engine actions

The cascade and lifecycle methods of `ProvisioningApplication` read and write
only the `id`, `config`, `plugin` and `configured` fields of a device
document; we embed those devices as a structure carrying exactly these
fields. Plugin bodies are external to the engine (only the plugin contract is
part of the core), so a plugin is embedded as its id together with the
observable outcome of its `configure` and `synchronize` methods. Side-effects
of the engine (plugin calls and collection writes) are recorded in an action
log. -/

/-- Projection of a device document onto the fields used by the cascades. -/
structure Dev where
  id : String
  config : Option String
  plugin : Option String
  configured : Bool
deriving Repr, DecidableEq

/-- A loaded plugin: its id and the outcome of its side-effectful methods
(`true` / `.ok` when the call does not raise). -/
structure Plugin where
  id : String
  configureOk : Dev → Doc → Bool
  syncResult : Dev → Doc → Except String Unit

/-- Side-effects performed by the engine, in order. -/
inductive Action where
  | deconfigure (devId : String)
  | configure (devId : String) (ok : Bool)
  | devWrite (dev : Dev)
  | devWriteDoc (doc : Doc)
  | cfgWrite (cfgId : String)
  | cfgDelete (cfgId : String)
  | synchronize (devId : String)
deriving Repr

/-- Translation of `_dev_configure`: validate the raw config, then apply the
defaults and call `plugin.configure`; `true` exactly when no exception was
raised. -/
def devConfigure (plugin : Plugin) (dev : Dev) (rawConfig : Doc) : Bool :=
  match checkRawConfigValidity rawConfig with
  | .error _ => false
  | .ok () => plugin.configureOk dev (setDefaultsRawConfig rawConfig)

/-- Translation of `_dev_get_plugin`: the loaded plugin of the device, if
any. `pgGet` embeds `pg_mgr.get` (`none` for ids that are not loaded). -/
def devGetPlugin (pgGet : String → Option Plugin) (dev : Dev) : Option Plugin :=
  dev.plugin.bind pgGet

/-! ### Config-lifecycle cascade (`cfg_update` and `cfg_delete`)

`rawConfigs` embeds the `raw_configs` dictionary materialized by step 2 of
the cascade: the resolved raw config of each affected config id (`none` when
resolution yields `None`, as for a deleted root). -/

/-- Body of the per-device loop of the `cfg_update` cascade
(`provd/app.py` lines 664-677). -/
def cfgUpdateDevice (pgGet : String → Option Plugin) (rawConfigs : String → Option Doc)
    (dev : Dev) : Except String (Dev × List Action) :=
  match devGetPlugin pgGet dev with
  | none => .ok (dev, [])
  | some plugin =>
    match dev.config with
    | none => .error "KeyError: config"
    | some cfgId =>
      match rawConfigs cfgId with
      | none => .error "assert raw_config is not None"
      | some rawConfig =>
        let acts := if dev.configured then [Action.deconfigure dev.id] else []
        let ok := devConfigure plugin dev rawConfig
        let acts := acts ++ [Action.configure dev.id ok]
        if dev.configured != ok then
          let dev' : Dev := { dev with configured := ok }
          .ok (dev', acts ++ [Action.devWrite dev'])
        else
          .ok (dev, acts)

/-- Body of the per-device loop of the `cfg_delete` cascade
(`provd/app.py` lines 717-736). In the branch where the device config is not
the deleted root, the source compares `device[u'configured']` with the new
outcome and persists the device, but unlike `cfg_insert` and `cfg_update` it
never assigns `device[u'configured'] = configured` before the write. -/
def cfgDeleteDevice (pgGet : String → Option Plugin) (rawConfigs : String → Option Doc)
    (deletedId : String) (dev : Dev) : Except String (Dev × List Action) :=
  match devGetPlugin pgGet dev with
  | none => .ok (dev, [])
  | some plugin =>
    match dev.config with
    | none => .error "KeyError: config"
    | some cfgId =>
      let rawConfig := rawConfigs cfgId
      let acts := if dev.configured then [Action.deconfigure dev.id] else []
      if cfgId = deletedId then
        match rawConfig with
        | some _ => .error "assert raw_config is None"
        | none =>
          if dev.configured then
            let dev' : Dev := { dev with configured := false }
            .ok (dev', acts ++ [Action.devWrite dev'])
          else
            .ok (dev, acts)
      else
        match rawConfig with
        | none => .error "assert raw_config is not None"
        | some rc =>
          let ok := devConfigure plugin dev rc
          let acts := acts ++ [Action.configure dev.id ok]
          if dev.configured != ok then
            .ok (dev, acts ++ [Action.devWrite dev])
          else
            .ok (dev, acts)

/-- Run a per-device cascade body over the affected devices, in iteration
order, collecting the resulting devices and the action log. -/
def runCascade (body : Dev → Except String (Dev × List Action)) :
    List Dev → Except String (List Dev × List Action)
  | [] => .ok ([], [])
  | d :: ds => do
    let (d', acts) ← body d
    let (ds', actsRest) ← runCascade body ds
    .ok (d' :: ds', acts ++ actsRest)

/-- Selector `{u'config': {u'$in': list(affected_cfg_ids)}}`. -/
def isAffected (affected : List String) (dev : Dev) : Bool :=
  match dev.config with
  | some c => affected.contains c
  | none => false

/-- Cascade part of `cfg_delete` (steps 1-3 after the collection delete):
`affected = {id} ∪ descendants(id)`, then the per-device pass over every
device whose config is affected. -/
def cfgDeleteCascade (pgGet : String → Option Plugin) (descendants : List String)
    (rawConfigs : String → Option Doc) (deletedId : String) (devices : List Dev) :
    Except String (List Dev × List Action) :=
  runCascade (cfgDeleteDevice pgGet rawConfigs deletedId)
    (devices.filter (isAffected (deletedId :: descendants)))

/-- Translation of `cfg_update`: look up the id, retrieve the stored config,
skip everything when the stored config equals the new one, otherwise persist
the config and run the cascade. `retrieveCfg` embeds
`cfg_collection.retrieve`. -/
def cfgUpdate (pgGet : String → Option Plugin) (descendants : List String)
    (rawConfigs : String → Option Doc) (retrieveCfg : String → Option Doc)
    (config : Doc) (devices : List Dev) : Except String (List Dev × List Action) :=
  match lookup config "id" with
  | none => .error "no id key for config"
  | some idVal =>
    match idVal with
    | .str id =>
      match retrieveCfg id with
      | none => .error ("invalid config ID " ++ id)
      | some oldConfig =>
        if Val.beqFields oldConfig config then
          .ok (devices.filter (isAffected (id :: descendants)), [])
        else do
          let (devs, acts) ←
            runCascade (cfgUpdateDevice pgGet rawConfigs)
              (devices.filter (isAffected (id :: descendants)))
          .ok (devs, Action.cfgWrite id :: acts)
    | _ => .error "id key is not a string"

/-! ### Plugin uninstall (`pg_uninstall`) -/

/-- Device pass of `pg_uninstall`: the devices matching
`{u'plugin': id, u'configured': True}` get `configured = False` and are
persisted; `plugin.deconfigure` is never called (soft deconfigure). The
catalog part (`pg_mgr.uninstall` / `_pg_unload`) does not touch devices and
is out of scope here. -/
def pgUninstall (pluginId : String) : List Dev → List Dev × List Action
  | [] => ([], [])
  | d :: ds =>
    let rest := pgUninstall pluginId ds
    if d.plugin == some pluginId && d.configured then
      let d' : Dev := { d with configured := false }
      (d' :: rest.1, Action.devWrite d' :: rest.2)
    else
      (d :: rest.1, rest.2)

/-! ### Device synchronize (`dev_synchronize`) -/

/-- Errors surfaced by `dev_synchronize`: `InvalidIdError` or a plain
`Exception` with a message. -/
inductive SyncError where
  | invalidId (msg : String)
  | exn (msg : String)
deriving Repr, DecidableEq

/-- Translation of `dev_synchronize` together with
`_dev_synchronize_if_possible` and `_dev_synchronize`. `retrieveDev` embeds
`dev_collection.retrieve`, `rawConfigOf` embeds `_dev_get_raw_config`. The
action log records the `plugin.synchronize` calls. -/
def devSynchronize (retrieveDev : String → Option Dev) (pgGet : String → Option Plugin)
    (rawConfigOf : Dev → Option Doc) (id : String) :
    Except SyncError Unit × List Action :=
  match retrieveDev id with
  | none => (.error (.invalidId ("invalid device ID \x22" ++ id ++ "\x22")), [])
  | some dev =>
    if !dev.configured then
      (.error (.exn ("can\x27t synchronize not configured device " ++ id)), [])
    else
      match devGetPlugin pgGet dev with
      | none =>
        (.error (.exn ("Plugin " ++ (dev.plugin.getD "None") ++ " is not installed/loaded")), [])
      | some plugin =>
        match rawConfigOf dev with
        | none =>
          (.error (.exn ("Plugin " ++ (dev.plugin.getD "None") ++ " is not installed/loaded")), [])
        | some rawConfig =>
          match plugin.syncResult dev (setDefaultsRawConfig rawConfig) with
          | .ok () => (.ok (), [Action.synchronize dev.id])
          | .error e => (.error (.exn e), [Action.synchronize dev.id])

/-! ### Device update (`dev_update`)

`dev_update` compares whole device documents, so here devices are embedded as
full documents. -/

/-- Reconfiguration-relevant device fields.

Modelled from the spec: `provd/devices/device.py`, which defines
`needs_reconfiguration`, is not in the source tree. Spec §4.5: the relevant
fields are `plugin`, `config`, `mac`, `ip`, `vendor`, `model`, `version`. -/
def reconfigKeys : List String :=
  ["plugin", "config", "mac", "ip", "vendor", "model", "version"]

/-- Modelled from the spec: `needs_reconfiguration(old, new)` of the missing
`provd/devices/device.py`; equality on the reconfiguration-relevant fields
means no need to rerun configure. -/
def needsReconfiguration (old new : Doc) : Bool :=
  reconfigKeys.any (fun k => !beqOptVal (lookup old k) (lookup new k))

/-- Device id of a document (`device[ID_KEY]`; ids are strings). -/
def getId (doc : Doc) : Option String :=
  match lookup doc "id" with
  | some (.str s) => some s
  | _ => none

/-- Translation of `dev_update` in the `pre_update_hook=None` case.
`configureIfPossible` embeds `_dev_configure_if_possible` for the new device
document, `retrieveDev` / `retrieveCfg` embed the collection retrieves and
`anyDeviceUsing` embeds `dev_collection.find_one({u'config': cfg_id})` being
non-empty. Returns the action log. -/
def devUpdate (retrieveDev : String → Option Doc) (retrieveCfg : String → Option Doc)
    (anyDeviceUsing : String → Bool) (configureIfPossible : Doc → Bool)
    (tenantUuid : String) (device : Doc) : Except String (List Action) :=
  match getId device with
  | none => .error "no id key for device"
  | some id =>
    match retrieveDev id with
    | none => .error ("invalid device ID \x22" ++ id ++ "\x22")
    | some oldDevice => do
      let (device, acts) ←
        if needsReconfiguration oldDevice device then do
          let acts ←
            match lookup oldDevice "configured" with
            | none => .error "KeyError: configured"
            | some v => .ok (if truthy (some v) then [Action.deconfigure id] else [])
          let ok := configureIfPossible device
          .ok (setKey device "configured" (.bool ok), acts ++ [Action.configure id ok])
        else
          match lookup oldDevice "configured" with
          | none => .error "KeyError: configured"
          | some v => .ok (setKey device "configured" v, [])
      if Val.beqFields device oldDevice then
        .ok acts
      else
        match lookup device "tenant_uuid" with
        | none => .error "KeyError: tenant_uuid"
        | some tv => do
          let device := setKey device "is_new" (.bool (Val.beq tv (.str tenantUuid)))
          let acts := acts ++ [Action.devWriteDoc device]
          match lookup oldDevice "config" with
          | some (.str oldCfgId) =>
            if !beqOptVal (some (.str oldCfgId)) (lookup device "config") then
              match retrieveCfg oldCfgId with
              | some oldCfg =>
                if truthy (lookup oldCfg "transient") && !anyDeviceUsing oldCfgId then
                  .ok (acts ++ [Action.cfgDelete oldCfgId])
                else .ok acts
              | none => .ok acts
            else .ok acts
          | _ => .ok acts

/-! ### Reader/writer lock

Modelled from the spec: `provd/synchro.py`, which defines `DeferredRWLock`,
is not in the source tree (only its tests are). Spec §5: writers are
preferred — once a writer is waiting, new readers queue behind it; when a
writer releases, all currently-waiting readers are admitted together if no
writer is queued, otherwise the next writer proceeds alone. The model below
reproduces the expected outputs of `rw_lock_privelege_writers` and
`rw_lock_schedule_all_readers_if_possible` in
`provd/tests/test_synchro.py`. -/

/-- Kind of a lock request. -/
inductive ReqKind where
  | read
  | write
deriving Repr, DecidableEq

/-- State of the reader/writer lock: currently-running readers, the
currently-running writer if any, and the queue of waiting requests in
arrival order. -/
structure LockState where
  activeReaders : List Nat
  activeWriter : Option Nat
  waiting : List (Nat × ReqKind)
deriving Repr, DecidableEq

/-- Lock events: a client requests the lock, or releases it. -/
inductive LockEvent where
  | request (id : Nat) (kind : ReqKind)
  | release (id : Nat)
deriving Repr, DecidableEq

/-- Whether some writer is waiting in the queue. -/
def hasWaitingWriter (waiting : List (Nat × ReqKind)) : Bool :=
  waiting.any (fun p => p.2 == ReqKind.write)

/-- Remove the first waiting writer from the queue, returning it and the
remaining queue. -/
def extractFirstWriter : List (Nat × ReqKind) → Option (Nat × List (Nat × ReqKind))
  | [] => none
  | (id, .write) :: rest => some (id, rest)
  | r :: rest =>
    match extractFirstWriter rest with
    | none => none
    | some (w, rest') => some (w, r :: rest')

/-- Wake-up rule applied when the lock becomes free: if a writer is queued,
the first queued writer proceeds alone; otherwise all currently-waiting
readers are admitted together. Returns the new state and the granted
requests. -/
def wake (s : LockState) : LockState × List (Nat × ReqKind) :=
  if hasWaitingWriter s.waiting then
    match extractFirstWriter s.waiting with
    | some (w, rest) =>
      ({ s with activeWriter := some w, waiting := rest }, [(w, .write)])
    | none => (s, [])
  else
    ({ s with activeReaders := s.activeReaders ++ s.waiting.map Prod.fst, waiting := [] },
      s.waiting)

/-- One step of the lock: grant immediately when allowed, otherwise queue;
on release, wake waiters when the lock becomes free. Returns the new state
and the requests granted during the step. -/
def lockStep (s : LockState) (e : LockEvent) : LockState × List (Nat × ReqKind) :=
  match e with
  | .request id .read =>
    if s.activeWriter == none && !hasWaitingWriter s.waiting then
      ({ s with activeReaders := s.activeReaders ++ [id] }, [(id, .read)])
    else
      ({ s with waiting := s.waiting ++ [(id, .read)] }, [])
  | .request id .write =>
    if s.activeWriter == none && s.activeReaders.isEmpty && s.waiting.isEmpty then
      ({ s with activeWriter := some id }, [(id, .write)])
    else
      ({ s with waiting := s.waiting ++ [(id, .write)] }, [])
  | .release id =>
    let s1 : LockState :=
      { s with activeReaders := s.activeReaders.erase id,
               activeWriter := if s.activeWriter == some id then none else s.activeWriter }
    if s1.activeWriter == none && s1.activeReaders.isEmpty then
      wake s1
    else
      (s1, [])

/-- Run the lock over a sequence of events, concatenating the grant log. -/
def lockRun (s : LockState) : List LockEvent → LockState × List (Nat × ReqKind)
  | [] => (s, [])
  | e :: es =>
    let (s1, g1) := lockStep s e
    let (s2, g2) := lockRun s1 es
    (s2, g1 ++ g2)

/-! ### DHCP option decoding
(`provd/rest/server/server.py`, `DeviceDHCPInfoResource._transform_options`) -/

/-- Value of a digit character, as accepted by Python `int(s, base)` for
bases up to 16 (code points: 48-57 are `0`-`9`, 97-102 are `a`-`f`, 65-70
are `A`-`F`). -/
def digitValue (c : Char) : Option Nat :=
  let p := c.toNat
  if 48 ≤ p && p ≤ 57 then some (p - 48)
  else if 97 ≤ p && p ≤ 102 then some (p - 97 + 10)
  else if 65 ≤ p && p ≤ 70 then some (p - 65 + 10)
  else none

/-- Model of Python `int(s, base)` on unsigned digit strings: `none` (a
`ValueError`) on the empty string or any character that is not a digit of
the base. -/
def parseNatChars (base : Nat) (cs : List Char) : Option Nat :=
  match cs with
  | [] => none
  | _ =>
    cs.foldl
      (fun acc c =>
        acc.bind (fun n =>
          (digitValue c).bind (fun d => if d < base then some (n * base + d) else none)))
      (some 0)

/-- Model of Python `int(s, base)` on strings. -/
def parseNat (base : Nat) (s : String) : Option Nat :=
  parseNatChars base s.data

/-- Model of Python `s.split(sep)` on character lists: splitting the empty
string yields `[""]`, and a leading separator yields a leading empty
token. -/
def splitChars (sep : Char) : List Char → List (List Char)
  | [] => [[]]
  | c :: cs =>
    let rest := splitChars sep cs
    if c = sep then [] :: rest
    else
      match rest with
      | h :: t => (c :: h) :: t
      | [] => [[c]]

/-- Model of Python 2 `chr(n)`: `none` (a `ValueError`) when `n ≥ 256`. -/
def chr (n : Nat) : Option Char :=
  if n < 256 then some (Char.ofNat n) else none

/-- Decode the value part of one option string: each dot-separated token is
parsed as hexadecimal and turned into one character. -/
def decodeTokens : List (List Char) → Option (List Char)
  | [] => some []
  | tok :: rest => do
    let n ← parseNatChars 16 tok
    let c ← chr n
    let cs ← decodeTokens rest
    some (c :: cs)

/-- Python `options[code] = value` on a code-keyed mapping: replace the
binding in place, or add it. -/
def upsertOption : List (Nat × String) → Nat → String → List (Nat × String)
  | [], code, value => [(code, value)]
  | (c, v) :: rest, code, value =>
    if c = code then (code, value) :: rest else (c, v) :: upsertOption rest code value

/-- Loop of `_transform_options` with the accumulated `options` mapping.
The slices `raw_option[:3]` and `raw_option[3:]` are taken on the character
list of the option string. -/
def transformOptionsAux (options : List (Nat × String)) :
    List String → Except String (List (Nat × String))
  | [] => .ok options
  | raw :: rest => do
    let code ←
      match parseNatChars 10 (raw.data.take 3) with
      | none => Except.error "invalid literal for int() with base 10"
      | some n => Except.ok n
    let chars ←
      match decodeTokens (splitChars '.' (raw.data.drop 3)) with
      | none => Except.error "invalid literal for int() with base 16"
      | some cs => Except.ok cs
    transformOptionsAux (upsertOption options code (String.mk chars)) rest

/-- Translation of `_transform_options`: for each raw option, the first three
characters are the decimal option code and the remainder, split on dots, is
hex-decoded into a byte string; any parse failure is a `ValueError` that
propagates out of the method. -/
def transformOptions (rawOptions : List String) : Except String (List (Nat × String)) :=
  transformOptionsAux [] rawOptions

/-! ### List-request selector
(`provd/rest/server/server.py`, `_add_selector_parameter`) -/

/-- Query parameters of a list request: the first value of `q` and of `q64`,
when present (`args['q'][0]` / `args['q64'][0]`). -/
structure QueryArgs where
  q : Option String
  q64 : Option String
deriving Repr, DecidableEq

/-- Translation of `_add_selector_parameter`. Base64 decoding
(`a2b_base64`) and JSON parsing (`json.loads`) are external library calls,
passed in as functions returning `none` on failure; a failure only logs a
warning and leaves the selector empty. The decoded selector is an arbitrary
JSON value; the initial `result['selector'] = {}` is the empty object. -/
def addSelectorParameter (b64decode : String → Option String)
    (jsonParse : String → Option Val) (args : QueryArgs) : Val :=
  match args.q64 with
  | some raw =>
    match b64decode raw with
    | none => .obj []
    | some rawSelector =>
      match jsonParse rawSelector with
      | none => .obj []
      | some selector => selector
  | none =>
    match args.q with
    | some raw =>
      match jsonParse raw with
      | none => .obj []
      | some selector => selector
    | none => .obj []

/-! ### Sequential multi-file download
(`provd/download.py`, `async_download_multiseq_with_oip`) -/

/-- State of an operation in progress. -/
inductive OipState where
  | progress
  | success
  | fail
deriving Repr, DecidableEq

/-- A remote file to download: its name and the outcome of its (sequential)
download, `.ok ()` on success and `.error err` on failure. -/
structure RemoteFile where
  name : String
  result : Except String Unit
deriving Repr

/-- Outcome of `async_download_multiseq_with_oip`: the files whose download
was started (in order), the sub-OIPs appended to the top OIP (one per
started download, in order), the final state of the top OIP and the result
of the top deferred (`none` while still in progress). -/
structure MultiSeqOutcome where
  started : List String
  subOips : List String
  topState : OipState
  topResult : Option (Except String Unit)
deriving Repr

/-- The `download_next_file` / `callback` / `errback` loop of
`async_download_multiseq_with_oip`: each file is started only after the
previous one succeeded; on a failure the top OIP fails and the top deferred
errbacks without starting the remaining files; when the list is exhausted
the top OIP succeeds. -/
def downloadNextFile : List RemoteFile → List String × OipState × Option (Except String Unit)
  | [] => ([], .success, some (.ok ()))
  | f :: fs =>
    match f.result with
    | .ok () =>
      let (started, st, res) := downloadNextFile fs
      (f.name :: started, st, res)
    | .error e => ([f.name], .fail, some (.error e))

/-- Translation of `async_download_multiseq_with_oip`: run the sequential
loop over the file list; the sub-OIPs are appended exactly when a download
is started. -/
def downloadMultiseqWithOip (remoteFiles : List RemoteFile) : MultiSeqOutcome :=
  let (started, st, res) := downloadNextFile remoteFiles
  { started := started, subOips := started, topState := st, topResult := res }

/-! ### Concrete instances used by counterexamples and witnesses -/

/-- A raw config whose single SIP line carries `protocol: SIP` but no
`username`, while the raw config itself has no top-level `protocol` key. -/
def rcLineProtocol : Doc :=
  [("ip", .str "10.0.0.1"), ("http_port", .num 8667), ("tftp_port", .num 69),
   ("sip_lines", .obj [("1", .obj [("proxy_ip", .str "1.2.3.4"),
                                   ("protocol", .str "SIP")])])]

/-- A raw config with a top-level `protocol: SIP` whose single line misses
`username`. -/
def rcTopProtocol : Doc :=
  [("ip", .str "10.0.0.1"), ("http_port", .num 8667), ("tftp_port", .num 69),
   ("protocol", .str "SIP"),
   ("sip_lines", .obj [("1", .obj [("proxy_ip", .str "1.2.3.4")])])]

/-- A raw config whose single line misses `proxy_ip` with no site-wide
`sip_proxy_ip`: it fails validation. -/
def rcMissingProxy : Doc :=
  [("ip", .str "10.0.0.1"), ("http_port", .num 8667), ("tftp_port", .num 69),
   ("sip_lines", .obj [("1", .obj [("username", .str "u")])])]

/-- A plugin whose `configure` and `synchronize` never raise. -/
def plugOk : Plugin :=
  ⟨"p", fun _ _ => true, fun _ _ => .ok ()⟩

/-- Plugin manager with only `plugOk` loaded. -/
def pgGetP : String → Option Plugin :=
  fun s => if s = "p" then some plugOk else none

/-- Raw configs materialized by the `cfg_delete` cascade after deleting the
root `c1`: the descendant `c2` now resolves to `rcMissingProxy` (the deleted
root supplied `sip_proxy_ip`), the deleted root resolves to nothing. -/
def rawCfgsAfterDelete : String → Option Doc :=
  fun s => if s = "c2" then some rcMissingProxy else none

/-- A configured device on config `c2` owned by plugin `p`. -/
def devOnC2 : Dev :=
  ⟨"d1", some "c2", some "p", true⟩

/-- Device documents stored for the `dev_update` no-op witness. -/
def devDocD1 : Doc :=
  [("id", .str "d1"), ("tenant_uuid", .str "t1"), ("mac", .str "00:11:22:33:44:55"),
   ("configured", .bool true)]

/-- Stored config document for the `cfg_update` no-op witness. -/
def cfgDocC1 : Doc :=
  [("id", .str "c1"), ("parent_ids", .obj []), ("raw_config", .obj [])]

/-- Initial lock state for the witnesses: writer 0 runs, writer 1 then
reader 2 wait. -/
def lockS0 : LockState :=
  ⟨[], some 0, [(1, .write), (2, .read)]⟩

/-- Events for the lock witness: writer 0 releases (waking writer 1), then
writer 1 releases (admitting reader 2). -/
def lockT0 : List LockEvent :=
  [.release 0, .release 1]

/-- Whether an action is a `plugin.deconfigure` call. -/
def Action.isDeconfigure : Action → Bool
  | .deconfigure _ => true
  | _ => false

/-- Whether a granted lock request is a read. -/
def isReadGrant (g : Nat × ReqKind) : Bool :=
  g.2 == ReqKind.read

/-- An unconfigured device, for the `dev_synchronize` witness. -/
def devUnconf : Dev :=
  ⟨"d9", some "c9", some "p", false⟩

/-- Device collection containing only `devUnconf`. -/
def retrUnconf : String → Option Dev :=
  fun s => if s = "d9" then some devUnconf else none

/-- Remote files for the download witness: `a` succeeds, `b` fails, `c` is
never started. -/
def rfA : RemoteFile := ⟨"a", .ok ()⟩

/-- A failing remote file. -/
def rfB : RemoteFile := ⟨"b", .error "download failed"⟩

/-- A remote file after the failing one. -/
def rfC : RemoteFile := ⟨"c", .ok ()⟩

/-- A raw config that passes validation, with syslog enabled, a site-wide
`sip_proxy_ip` and one SIP line; used by the defaults witness. -/
def rcFull : Doc :=
  [("ip", .str "10.0.0.1"), ("http_port", .num 8667), ("tftp_port", .num 69),
   ("syslog_enabled", .bool true), ("syslog_ip", .str "10.0.0.2"),
   ("sip_proxy_ip", .str "10.0.0.3"),
   ("sip_lines", .obj [("1", .obj [("proxy_ip", .str "10.0.0.4"),
                                   ("username", .str "u1")])])]

/-! ## Lemmas -/

/-- Sequencing in `Except`: a successful chain has a successful head and
tail. -/
theorem seq_ok {α : Type} {a : Except String Unit} {f : Unit → Except String α} {y : α}
    (h : (a >>= f) = .ok y) : a = .ok () ∧ f () = .ok y := by
  cases a with
  | error e => simp [Bind.bind, Except.bind] at h
  | ok u => cases u; exact ⟨rfl, h⟩

/-- An `Except String Unit` value that is not `.ok ()` is an error. -/
theorem not_ok_iff_error {e : Except String Unit} :
    e ≠ .ok () ↔ ∃ msg, e = .error msg := by
  cases e with
  | error msg => simp
  | ok u => cases u; simp

/-- Requiring a parameter that is missing fails. -/
theorem requireLineParams_ne_ok {line : List (String × Val)} {lineNo p : String}
    {params : List String} (hmem : p ∈ params) (hmiss : hasKey line p = false) :
    requireLineParams line lineNo params ≠ .ok () := by
  induction params with
  | nil => cases hmem
  | cons q qs ih =>
    cases hmem with
    | head =>
      simp only [requireLineParams, hmiss]
      intro h
      exact absurd h (by simp)
    | tail _ hq =>
      simp only [requireLineParams]
      by_cases hk : hasKey line q
      · simp only [hk, if_true]
        exact ih hq
      · simp only [hk, if_false]
        intro h
        exact absurd h (by simp)

/-- A line entry violating the per-line requirements makes the `sip_lines`
loop fail. -/
theorem checkSipLines_ne_ok {rc : Doc} {lines : List (String × Val)}
    {lineNo : String} {line : List (String × Val)}
    (hmem : (lineNo, Val.obj line) ∈ lines)
    (hbad :
      ((hasKey rc "protocol" && beqOptVal (lookup rc "protocol") (some (.str "SIP"))) = true
        ∧ (hasKey line "username" = false ∨ hasKey line "password" = false
            ∨ hasKey line "display_name" = false))
      ∨ (hasKey line "proxy_ip" = false ∧ hasKey rc "sip_proxy_ip" = false)) :
    checkSipLines rc lines ≠ .ok () := by
  induction lines with
  | nil => cases hmem
  | cons hd rest ih =>
    intro hok
    obtain ⟨n, v⟩ := hd
    simp only [checkSipLines] at hok
    cases hv : asObj v with
    | error e => rw [hv] at hok; simp [Bind.bind, Except.bind] at hok
    | ok fields =>
      rw [hv] at hok
      simp only [Bind.bind, Except.bind] at hok
      by_cases hproxy : (!hasKey fields "proxy_ip" && !hasKey rc "sip_proxy_ip") = true
      · rw [if_pos hproxy] at hok
        exact absurd hok (by simp)
      · rw [if_neg hproxy] at hok
        obtain ⟨hhead, htail⟩ := seq_ok hok
        cases hmem with
        | head =>
          have hfields : fields = line := by
            simp [asObj] at hv
            exact hv.symm
          subst hfields
          cases hbad with
          | inl hprot =>
            obtain ⟨hcond, hmiss⟩ := hprot
            rw [if_pos hcond] at hhead
            have hone : ∃ p, p ∈ ["username", "password", "display_name"]
                ∧ hasKey fields p = false := by
              cases hmiss with
              | inl h => exact ⟨"username", by simp, h⟩
              | inr h =>
                cases h with
                | inl h => exact ⟨"password", by simp, h⟩
                | inr h => exact ⟨"display_name", by simp, h⟩
            obtain ⟨p, hp, hmp⟩ := hone
            exact requireLineParams_ne_ok hp hmp hhead
          | inr hproxy2 =>
            exact hproxy (by simp [hproxy2.1, hproxy2.2])
        | tail _ hmem' =>
          exact ih hmem' htail

/-- A successful validation has a successful `sip_lines` section. -/
theorem checkSipLinesSection_ok {rc : Doc}
    (h : checkRawConfigValidity rc = .ok ()) : checkSipLinesSection rc = .ok () := by
  unfold checkRawConfigValidity at h
  obtain ⟨-, h⟩ := seq_ok h
  obtain ⟨-, h⟩ := seq_ok h
  obtain ⟨-, h⟩ := seq_ok h
  obtain ⟨-, h⟩ := seq_ok h
  exact (seq_ok h).1

/-- A successful `sip_lines` section whose `sip_lines` value is a mapping
has a successful per-line loop. -/
theorem checkSipLines_ok_of_section {rc : Doc} {lines : List (String × Val)}
    (hv : lookup rc "sip_lines" = some (.obj lines))
    (h : checkSipLinesSection rc = .ok ()) : checkSipLines rc lines = .ok () := by
  unfold checkSipLinesSection at h
  rw [hv] at h
  simpa [asObj, Bind.bind, Except.bind] using h

mutual

/-- Value equality is reflexive. -/
theorem Val.beq_refl : (v : Val) → Val.beq v v = true
  | .str s => by simp [Val.beq]
  | .num n => by simp [Val.beq]
  | .bool b => by simp [Val.beq]
  | .obj fields => by
    simp only [Val.beq]
    exact Val.beqFields_refl fields

/-- Field-list equality is reflexive. -/
theorem Val.beqFields_refl : (fs : List (String × Val)) → Val.beqFields fs fs = true
  | [] => rfl
  | (k, v) :: rest => by
    simp only [Val.beqFields, Bool.and_eq_true]
    exact ⟨⟨by simp, Val.beq_refl v⟩, Val.beqFields_refl rest⟩

end

/-- Optional-value equality is reflexive. -/
theorem beqOptVal_refl (o : Option Val) : beqOptVal o o = true := by
  cases o with
  | none => rfl
  | some v => exact Val.beq_refl v

/-- A document never needs reconfiguration against itself. -/
theorem needsReconfiguration_self (d : Doc) : needsReconfiguration d d = false := by
  simp [needsReconfiguration, beqOptVal_refl]

/-- Setting a key to the value it already has leaves the document
unchanged. -/
theorem setKey_self {doc : Doc} {k : String} {v : Val}
    (h : lookup doc k = some v) : setKey doc k v = doc := by
  induction doc with
  | nil => simp [lookup] at h
  | cons p rest ih =>
    obtain ⟨k', v'⟩ := p
    simp only [lookup] at h
    by_cases hk : k' = k
    · subst hk
      rw [if_pos rfl] at h
      injection h with h
      simp [setKey, h]
    · rw [if_neg hk] at h
      simp [setKey, hk, ih h]

/-- A successful lookup survives an append. -/
theorem lookup_append_some {doc : Doc} {k : String} {v : Val}
    (h : lookup doc k = some v) (l : Doc) : lookup (doc ++ l) k = some v := by
  induction doc with
  | nil => simp [lookup] at h
  | cons p rest ih =>
    obtain ⟨k', v'⟩ := p
    simp only [lookup] at h ⊢
    by_cases hk : k' = k
    · rw [if_pos hk] at h ⊢; exact h
    · rw [if_neg hk] at h ⊢; exact ih h

/-- A failed lookup defers to the appended part. -/
theorem lookup_append_none {doc : Doc} {k : String}
    (h : lookup doc k = none) (l : Doc) : lookup (doc ++ l) k = lookup l k := by
  induction doc with
  | nil => rfl
  | cons p rest ih =>
    obtain ⟨k', v'⟩ := p
    simp only [lookup] at h ⊢
    by_cases hk : k' = k
    · rw [if_pos hk] at h; cases h
    · rw [if_neg hk] at h ⊢; exact ih h

/-- Lookup of the defaulted key: the old value when present, the default
otherwise. -/
theorem lookup_setdefault_self (doc : Doc) (k : String) (v : Val) :
    lookup (setdefault doc k v) k = some ((lookup doc k).getD v) := by
  unfold setdefault hasKey
  cases h : lookup doc k with
  | some w => simp [h]
  | none =>
    simp only [h, Option.isSome_none, Bool.false_eq_true, if_false, Option.getD_none]
    rw [lookup_append_none h]
    simp [lookup]

/-- Lookup of another key is unchanged by `setdefault`. -/
theorem lookup_setdefault_ne {k' k : String} (h : k' ≠ k) (doc : Doc) (v : Val) :
    lookup (setdefault doc k v) k' = lookup doc k' := by
  unfold setdefault
  by_cases hk : hasKey doc k
  · simp [hk]
  · simp only [hk, Bool.false_eq_true, if_false]
    cases h2 : lookup doc k' with
    | some w => rw [lookup_append_some h2]
    | none =>
      have h3 : lookup ([(k, v)] : Doc) k' = none := by
        simp only [lookup]
        rw [if_neg (fun hkk => h hkk.symm)]
      rw [lookup_append_none h2, h3]

/-- Lookup of a present key is unchanged by `setdefault`. -/
theorem lookup_setdefault_present {doc : Doc} {k' : String}
    (hp : (lookup doc k').isSome) (k : String) (v : Val) :
    lookup (setdefault doc k v) k' = lookup doc k' := by
  by_cases hk : k' = k
  · subst hk
    rw [lookup_setdefault_self]
    obtain ⟨w, hw⟩ := Option.isSome_iff_exists.mp hp
    simp [hw]
  · exact lookup_setdefault_ne hk doc v

/-- Lookup of the assigned key after `setKey`. -/
theorem lookup_setKey_self (doc : Doc) (k : String) (v : Val) :
    lookup (setKey doc k v) k = some v := by
  induction doc with
  | nil => simp [setKey, lookup]
  | cons p rest ih =>
    obtain ⟨k', v'⟩ := p
    simp only [setKey]
    by_cases hk : k' = k
    · rw [if_pos hk]; simp [lookup]
    · rw [if_neg hk]; simp only [lookup, if_neg hk]; exact ih

/-- Lookup of another key is unchanged by `setKey`. -/
theorem lookup_setKey_ne {k' k : String} (h : k' ≠ k) (doc : Doc) (v : Val) :
    lookup (setKey doc k v) k' = lookup doc k' := by
  induction doc with
  | nil =>
    simp only [setKey, lookup]
    rw [if_neg (fun hkk => h hkk.symm)]
  | cons p rest ih =>
    obtain ⟨k'', v''⟩ := p
    simp only [setKey]
    by_cases hk : k'' = k
    · subst hk
      rw [if_pos rfl]
      simp only [lookup]
      rw [if_neg (fun hkk => h hkk.symm), if_neg (fun hkk => h hkk.symm)]
    · rw [if_neg hk]
      simp only [lookup]
      by_cases hk2 : k'' = k'
      · rw [if_pos hk2, if_pos hk2]
      · rw [if_neg hk2, if_neg hk2]; exact ih

/-- Syslog defaults leave other keys unchanged. -/
theorem lookup_syslogDefaults_ne {k : String} (h1 : k ≠ "syslog_port")
    (h2 : k ≠ "level") (rc : Doc) : lookup (syslogDefaults rc) k = lookup rc k := by
  unfold syslogDefaults
  by_cases hc : truthy (lookup rc "syslog_enabled")
  · rw [if_pos hc, lookup_setdefault_ne h2, lookup_setdefault_ne h1]
  · rw [if_neg hc]

/-- Syslog defaults keep present keys. -/
theorem lookup_syslogDefaults_present {rc : Doc} {k : String}
    (hp : (lookup rc k).isSome) : lookup (syslogDefaults rc) k = lookup rc k := by
  unfold syslogDefaults
  by_cases hc : truthy (lookup rc "syslog_enabled")
  · rw [if_pos hc]
    have e1 := lookup_setdefault_present hp "syslog_port" (Val.num 514)
    have p1 : (lookup (setdefault rc "syslog_port" (Val.num 514)) k).isSome := by
      rw [e1]; exact hp
    rw [lookup_setdefault_present p1, e1]
  · rw [if_neg hc]

/-- The registrar default leaves other keys unchanged. -/
theorem lookup_registrarDefault_ne {k : String} (h : k ≠ "sip_registrar_ip")
    (rc : Doc) : lookup (registrarDefault rc) k = lookup rc k := by
  unfold registrarDefault
  cases hp : lookup rc "sip_proxy_ip" with
  | some v => rw [lookup_setdefault_ne h]
  | none => rfl

/-- The registrar default keeps present keys. -/
theorem lookup_registrarDefault_present {rc : Doc} {k : String}
    (hp : (lookup rc k).isSome) : lookup (registrarDefault rc) k = lookup rc k := by
  unfold registrarDefault
  cases hv : lookup rc "sip_proxy_ip" with
  | some v => rw [lookup_setdefault_present hp]
  | none => rfl

/-- The `sip_lines` defaults leave other keys unchanged. -/
theorem lookup_sipLinesDefaults_ne {k : String} (h : k ≠ "sip_lines")
    (rc : Doc) : lookup (sipLinesDefaults rc) k = lookup rc k := by
  unfold sipLinesDefaults
  cases hv : lookup rc "sip_lines" with
  | none => rw [lookup_setKey_ne h]
  | some v =>
    cases v with
    | obj lines => rw [lookup_setKey_ne h]
    | str s => rfl
    | num n => rfl
    | bool b => rfl

/-- A present `sip_lines` mapping gets its per-line defaults. -/
theorem lookup_sipLinesDefaults_obj {rc : Doc} {lines : List (String × Val)}
    (h : lookup rc "sip_lines" = some (.obj lines)) :
    lookup (sipLinesDefaults rc) "sip_lines" =
      some (.obj (lines.map (fun p => (p.1, mapLine p.2)))) := by
  unfold sipLinesDefaults
  rw [h, lookup_setKey_self]

/-- An absent `sip_lines` becomes the empty mapping. -/
theorem lookup_sipLinesDefaults_none {rc : Doc}
    (h : lookup rc "sip_lines" = none) :
    lookup (sipLinesDefaults rc) "sip_lines" = some (.obj []) := by
  unfold sipLinesDefaults
  rw [h, lookup_setKey_self]

/-- Lookup through the whole defaults pass, for keys none of the defaulting
statements touch. -/
theorem lookup_setDefaults_untouched {k : String} (rc : Doc)
    (h1 : k ≠ "syslog_port") (h2 : k ≠ "level") (h3 : k ≠ "sip_registrar_ip")
    (h4 : k ≠ "sip_srtp_mode") (h5 : k ≠ "sip_transport") (h6 : k ≠ "sip_lines")
    (h7 : k ≠ "sccp_call_managers") (h8 : k ≠ "funckeys") :
    lookup (setDefaultsRawConfig rc) k = lookup rc k := by
  unfold setDefaultsRawConfig
  rw [lookup_setdefault_ne h8, lookup_setdefault_ne h7, lookup_sipLinesDefaults_ne h6,
    lookup_setdefault_ne h5, lookup_setdefault_ne h4, lookup_registrarDefault_ne h3,
    lookup_syslogDefaults_ne h1 h2]

/-- Lookup through the whole defaults pass: every present key other than
`sip_lines` keeps its value. -/
theorem lookup_setDefaults_present {rc : Doc} {k : String} (h6 : k ≠ "sip_lines")
    (hp : (lookup rc k).isSome) :
    lookup (setDefaultsRawConfig rc) k = lookup rc k := by
  unfold setDefaultsRawConfig
  have e1 := lookup_syslogDefaults_present hp
  have p1 : (lookup (syslogDefaults rc) k).isSome := by rw [e1]; exact hp
  have e2 := lookup_registrarDefault_present p1
  have p2 : (lookup (registrarDefault (syslogDefaults rc)) k).isSome := by
    rw [e2]; exact p1
  have e3 := lookup_setdefault_present p2 "sip_srtp_mode" (Val.str "disabled")
  have p3 : (lookup (setdefault (registrarDefault (syslogDefaults rc))
      "sip_srtp_mode" (Val.str "disabled")) k).isSome := by rw [e3]; exact p2
  have e4 := lookup_setdefault_present p3 "sip_transport" (Val.str "udp")
  have p4 : (lookup (setdefault (setdefault (registrarDefault (syslogDefaults rc))
      "sip_srtp_mode" (Val.str "disabled")) "sip_transport" (Val.str "udp")) k).isSome := by
    rw [e4]; exact p3
  have e5 := lookup_sipLinesDefaults_ne h6 (setdefault (setdefault
    (registrarDefault (syslogDefaults rc)) "sip_srtp_mode" (Val.str "disabled"))
    "sip_transport" (Val.str "udp"))
  have p5 : (lookup (sipLinesDefaults (setdefault (setdefault
      (registrarDefault (syslogDefaults rc)) "sip_srtp_mode" (Val.str "disabled"))
      "sip_transport" (Val.str "udp"))) k).isSome := by rw [e5]; exact p4
  have e6 := lookup_setdefault_present p5 "sccp_call_managers" (Val.obj [])
  have p6 : (lookup (setdefault (sipLinesDefaults (setdefault (setdefault
      (registrarDefault (syslogDefaults rc)) "sip_srtp_mode" (Val.str "disabled"))
      "sip_transport" (Val.str "udp"))) "sccp_call_managers" (Val.obj [])) k).isSome := by
    rw [e6]; exact p5
  rw [lookup_setdefault_present p6, e6, e5, e4, e3, e2, e1]

/-- A queue containing a writer has a waiting writer. -/
theorem hasWaitingWriter_of_mem {l : List (Nat × ReqKind)} {w : Nat}
    (h : (w, ReqKind.write) ∈ l) : hasWaitingWriter l = true := by
  simp only [hasWaitingWriter, List.any_eq_true]
  exact ⟨(w, .write), h, rfl⟩

/-- A queue with a waiting writer yields one on extraction. -/
theorem extractFirstWriter_isSome {l : List (Nat × ReqKind)} {w : Nat}
    (h : (w, ReqKind.write) ∈ l) : ∃ p, extractFirstWriter l = some p := by
  induction l with
  | nil => cases h
  | cons hd tl ih =>
    obtain ⟨id, k⟩ := hd
    cases k with
    | write => exact ⟨(id, tl), rfl⟩
    | read =>
      cases h with
      | tail _ htl =>
        obtain ⟨⟨w2, rest2⟩, h2⟩ := ih htl
        refine ⟨(w2, (id, .read) :: rest2), ?_⟩
        simp only [extractFirstWriter, h2]

/-- A waiting writer is either the extracted writer or stays in the
remaining queue. -/
theorem extractFirstWriter_mem {l : List (Nat × ReqKind)} {w : Nat} :
    ∀ {w' : Nat} {rest : List (Nat × ReqKind)},
    extractFirstWriter l = some (w', rest) →
    (w, ReqKind.write) ∈ l → w = w' ∨ (w, ReqKind.write) ∈ rest := by
  induction l with
  | nil =>
    intro w' rest he h
    cases h
  | cons hd tl ih =>
    intro w' rest he h
    obtain ⟨id, k⟩ := hd
    cases k with
    | write =>
      simp only [extractFirstWriter] at he
      injection he with he
      injection he with h1 h2
      cases h with
      | head => exact Or.inl h1
      | tail _ htl =>
        right
        rw [← h2]
        exact htl
    | read =>
      simp only [extractFirstWriter] at he
      cases h2 : extractFirstWriter tl with
      | none =>
        rw [h2] at he
        cases he
      | some p =>
        obtain ⟨w2, rest2⟩ := p
        rw [h2] at he
        simp only at he
        injection he with he
        injection he with ha hb
        cases h with
        | tail _ htl =>
          cases ih h2 htl with
          | inl h1 => exact Or.inl (ha ▸ h1)
          | inr h1 =>
            right
            rw [← hb]
            exact List.mem_cons_of_mem _ h1

/-- While a writer is waiting, no step grants a read. -/
theorem lockStep_no_read_grant {s : LockState} {w : Nat}
    (hw : (w, ReqKind.write) ∈ s.waiting) (e : LockEvent) :
    ∀ g ∈ (lockStep s e).2, g.2 = ReqKind.write := by
  intro g hg
  cases e with
  | request id kind =>
    cases kind with
    | read =>
      have hww := hasWaitingWriter_of_mem hw
      simp only [lockStep, hww, Bool.not_true, Bool.and_false, Bool.false_eq_true,
        if_false] at hg
      cases hg
    | write =>
      simp only [lockStep] at hg
      by_cases hc : (s.activeWriter == none && s.activeReaders.isEmpty
          && s.waiting.isEmpty) = true
      · rw [if_pos hc] at hg
        simp at hg
        rw [hg]
      · rw [if_neg hc] at hg
        cases hg
  | release id =>
    simp only [lockStep] at hg
    by_cases hc : ((if s.activeWriter == some id then none else s.activeWriter)
        == none && (s.activeReaders.erase id).isEmpty) = true
    · rw [if_pos hc] at hg
      unfold wake at hg
      have hww : hasWaitingWriter s.waiting = true := hasWaitingWriter_of_mem hw
      simp only [hww, if_true] at hg
      cases he : extractFirstWriter s.waiting with
      | none =>
        rw [he] at hg
        cases hg
      | some p =>
        obtain ⟨w', rest⟩ := p
        rw [he] at hg
        simp only [List.mem_singleton] at hg
        rw [hg]
    · rw [if_neg hc] at hg
      cases hg

/-- A waiting writer stays in the queue until the step that grants it. -/
theorem lockStep_writer_persists {s : LockState} {w : Nat}
    (hw : (w, ReqKind.write) ∈ s.waiting) (e : LockEvent) :
    (w, ReqKind.write) ∈ (lockStep s e).1.waiting
      ∨ (w, ReqKind.write) ∈ (lockStep s e).2 := by
  cases e with
  | request id kind =>
    cases kind with
    | read =>
      simp only [lockStep]
      by_cases hc : (s.activeWriter == none && !hasWaitingWriter s.waiting) = true
      · rw [if_pos hc]; exact Or.inl hw
      · rw [if_neg hc]; exact Or.inl (List.mem_append_left _ hw)
    | write =>
      simp only [lockStep]
      by_cases hc : (s.activeWriter == none && s.activeReaders.isEmpty
          && s.waiting.isEmpty) = true
      · exfalso
        have : s.waiting.isEmpty = true := by
          simp only [Bool.and_eq_true] at hc
          exact hc.2
        rw [List.isEmpty_iff] at this
        rw [this] at hw
        cases hw
      · rw [if_neg hc]; exact Or.inl (List.mem_append_left _ hw)
  | release id =>
    simp only [lockStep]
    by_cases hc : ((if s.activeWriter == some id then none else s.activeWriter)
        == none && (s.activeReaders.erase id).isEmpty) = true
    · rw [if_pos hc]
      unfold wake
      have hww : hasWaitingWriter s.waiting = true := hasWaitingWriter_of_mem hw
      simp only [hww, if_true]
      cases he : extractFirstWriter s.waiting with
      | none =>
        obtain ⟨p, hp⟩ := extractFirstWriter_isSome hw
        rw [he] at hp
        cases hp
      | some p =>
        obtain ⟨w', rest⟩ := p
        cases extractFirstWriter_mem he hw with
        | inl h1 => right; simp [h1]
        | inr h1 => left; exact h1
    · rw [if_neg hc]; exact Or.inl hw

/-- While a writer is waiting, every grant in a run before the writer's own
grant is a write; hence any read granted during the run is preceded in the
grant log by the writer's grant. -/
theorem lockRun_writer_first {w : Nat} :
    ∀ (t : List LockEvent) (s : LockState), (w, ReqKind.write) ∈ s.waiting →
      ∀ (i r : Nat), (lockRun s t).2.get? i = some (r, ReqKind.read) →
      ∃ j, j < i ∧ (lockRun s t).2.get? j = some (w, ReqKind.write) := by
  intro t
  induction t with
  | nil =>
    intro s hw i r hget
    simp [lockRun] at hget
  | cons e es ih =>
    intro s hw i r hget
    have hrun : (lockRun s (e :: es)).2 =
        (lockStep s e).2 ++ (lockRun (lockStep s e).1 es).2 := rfl
    rw [hrun] at hget ⊢
    by_cases hi : i < (lockStep s e).2.length
    · exfalso
      rw [List.get?_append hi] at hget
      have hmem : (r, ReqKind.read) ∈ (lockStep s e).2 := List.get?_mem hget
      have := lockStep_no_read_grant hw e _ hmem
      simp at this
    · push_neg at hi
      rw [List.get?_append_right hi] at hget
      cases lockStep_writer_persists hw e with
      | inl hpersist =>
        obtain ⟨j', hj', hgj'⟩ := ih (lockStep s e).1 hpersist _ r hget
        refine ⟨(lockStep s e).2.length + j', ?_, ?_⟩
        · omega
        · rw [List.get?_append_right (by omega)]
          simpa using hgj'
      | inr hgranted =>
        obtain ⟨j, hj⟩ := List.get?_of_mem hgranted
        have hjlt : j < (lockStep s e).2.length := by
          by_contra hge
          push_neg at hge
          rw [List.get?_eq_none.mpr hge] at hj
          cases hj
        refine ⟨j, ?_, ?_⟩
        · omega
        · rw [List.get?_append hjlt]
          exact hj

/-! ## Claims -/

/-- C1: the config-lifecycle cascade of `cfg_delete` is expected to persist
the new `configured` outcome on every affected device whose outcome changed.
Evaluating the embedded `cfg_delete` cascade on a configured device whose
config is a descendant of the deleted root and whose new raw config fails
validation: the deconfigure-then-configure pass yields `false`, the device
is persisted (its flag changed), yet the persisted document still carries
`configured = true` — the source never assigns the new outcome before the
write. -/
theorem c1_cfg_delete_persists_stale_configured_flag :
    cfgDeleteCascade pgGetP ["c2"] rawCfgsAfterDelete "c1" [devOnC2] =
      .ok ([devOnC2],
        [.deconfigure "d1", .configure "d1" false, .devWrite devOnC2])
    ∧ devOnC2.configured = true := by
  exact ⟨rfl, rfl⟩

/-- C2 counterexample: a raw config whose single `sip_lines` entry has
`protocol: SIP` and no `username` (and no top-level `protocol` key) passes
validation, refuting the claim that such a raw config fails validation. -/
theorem c2_counterexample_line_protocol_ignored :
    lookup rcLineProtocol "sip_lines" =
      some (.obj [("1", .obj [("proxy_ip", .str "1.2.3.4"),
                              ("protocol", .str "SIP")])])
    ∧ checkRawConfigValidity rcLineProtocol = .ok () := by
  exact ⟨rfl, rfl⟩

/-- C2 (amended): validation fails whenever the raw config itself (not the
line) carries `protocol = "SIP"` and some `sip_lines` entry misses
`username`, `password` or `display_name`; and it fails whenever some entry
misses `proxy_ip` with no site-wide `sip_proxy_ip`. -/
theorem c2_sip_lines_validation (rc : Doc) (lines : List (String × Val))
    (lineNo : String) (line : List (String × Val))
    (hsip : lookup rc "sip_lines" = some (.obj lines))
    (hmem : (lineNo, Val.obj line) ∈ lines)
    (hbad :
      (lookup rc "protocol" = some (.str "SIP")
        ∧ (hasKey line "username" = false ∨ hasKey line "password" = false
            ∨ hasKey line "display_name" = false))
      ∨ (hasKey line "proxy_ip" = false ∧ hasKey rc "sip_proxy_ip" = false)) :
    ∃ msg, checkRawConfigValidity rc = .error msg := by
  rw [← not_ok_iff_error]
  intro hok
  have hsec := checkSipLinesSection_ok hok
  have hlines := checkSipLines_ok_of_section hsip hsec
  refine checkSipLines_ne_ok hmem ?_ hlines
  cases hbad with
  | inl h =>
    refine Or.inl ⟨?_, h.2⟩
    simp [hasKey, h.1, beqOptVal, Val.beq]
  | inr h => exact Or.inr h

/-- C2 witness: the amended theorem applied to a raw config with top-level
`protocol: SIP` and a line missing `username`. -/
theorem c2_sip_lines_validation_witness :
    ∃ msg, checkRawConfigValidity rcTopProtocol = .error msg := by
  exact c2_sip_lines_validation rcTopProtocol
    [("1", .obj [("proxy_ip", .str "1.2.3.4")])] "1"
    [("proxy_ip", .str "1.2.3.4")] rfl (by simp)
    (Or.inl ⟨rfl, Or.inl rfl⟩)

/-- C7: the DHCP option transformation is expected to map
`"060.43.69.73.63.6f"` to option 60 with value `"Cisco"`. The source slices
`raw_option[3:]`, keeping the leading dot, so the first dot-separated token
is empty and `int('', 16)` raises `ValueError`: the transformation errors
instead of producing the mapping. -/
theorem c7_transform_options_rejects_documented_format :
    transformOptions ["060.43.69.73.63.6f"] =
      .error "invalid literal for int() with base 16"
    ∧ splitChars '.' ("060.43.69.73.63.6f".data.drop 3) =
        ["".data, "43".data, "69".data, "73".data, "63".data, "6f".data]
    ∧ parseNatChars 16 [] = none := by
  exact ⟨rfl, rfl, rfl⟩

/-- C3: after `pg_uninstall`, every device owned by the uninstalled plugin
has `configured = false` in the collection, and no `plugin.deconfigure`
call appears in the action log (soft deconfigure). -/
theorem c3_pg_uninstall_soft_deconfigure (pluginId : String) (devices : List Dev) :
    ((pgUninstall pluginId devices).1.all
      (fun d => d.plugin != some pluginId || !d.configured)) = true
    ∧ ((pgUninstall pluginId devices).2.all
      (fun a => !a.isDeconfigure)) = true := by
  induction devices with
  | nil => exact ⟨rfl, rfl⟩
  | cons d ds ih =>
    obtain ⟨ih1, ih2⟩ := ih
    by_cases hc : (d.plugin == some pluginId && d.configured) = true
    · constructor
      · simp only [pgUninstall, hc, if_true, List.all_cons, Bool.and_eq_true]
        exact ⟨by simp, ih1⟩
      · simp only [pgUninstall, hc, if_true, List.all_cons, Bool.and_eq_true]
        exact ⟨rfl, ih2⟩
    · rw [Bool.not_eq_true] at hc
      constructor
      · simp only [pgUninstall, hc, Bool.false_eq_true, if_false, List.all_cons,
          Bool.and_eq_true]
        refine ⟨?_, ih1⟩
        cases hp : (d.plugin == some pluginId) <;> cases hcf : d.configured <;>
          simp_all
      · simpa only [pgUninstall, hc, Bool.false_eq_true, if_false] using ih2

/-- C4: `dev_synchronize` on a stored device whose `configured` flag is
false errbacks with the not-configured error and never calls
`plugin.synchronize`; on an unknown id it errbacks with `InvalidIdError`. -/
theorem c4_dev_synchronize_requires_configured :
    (∀ (retrieveDev : String → Option Dev) (pgGet : String → Option Plugin)
        (rawConfigOf : Dev → Option Doc) (id : String) (dev : Dev),
      retrieveDev id = some dev → dev.configured = false →
      devSynchronize retrieveDev pgGet rawConfigOf id =
        (.error (.exn ("can\x27t synchronize not configured device " ++ id)), []))
    ∧ (∀ (retrieveDev : String → Option Dev) (pgGet : String → Option Plugin)
        (rawConfigOf : Dev → Option Doc) (id : String),
      retrieveDev id = none →
      devSynchronize retrieveDev pgGet rawConfigOf id =
        (.error (.invalidId ("invalid device ID \x22" ++ id ++ "\x22")), [])) := by
  constructor
  · intro retrieveDev pgGet rawConfigOf id dev hret hconf
    unfold devSynchronize
    rw [hret]
    simp [hconf]
  · intro retrieveDev pgGet rawConfigOf id hret
    unfold devSynchronize
    rw [hret]

/-- C4 witness: the theorem applied to a collection holding one
unconfigured device. -/
theorem c4_dev_synchronize_requires_configured_witness :
    devSynchronize retrUnconf pgGetP (fun _ => none) "d9" =
      (.error (.exn ("can\x27t synchronize not configured device d9")), [])
    ∧ devSynchronize retrUnconf pgGetP (fun _ => none) "zz" =
      (.error (.invalidId ("invalid device ID \x22zz\x22")), []) := by
  exact ⟨c4_dev_synchronize_requires_configured.1 retrUnconf pgGetP (fun _ => none)
          "d9" devUnconf rfl rfl,
        c4_dev_synchronize_requires_configured.2 retrUnconf pgGetP (fun _ => none)
          "zz" rfl⟩

/-- C8: the selector of a list request prefers `q64`: when both are present
the selector is the one decoded from `q64` and the `q` value is ignored;
with only `q`, its JSON value is used; when nothing parses, the selector is
empty. -/
theorem c8_selector_q64_precedence :
    (∀ (b64 : String → Option String) (parse : String → Option Val)
        (q q64raw s : String) (sel : Val),
      b64 q64raw = some s → parse s = some sel →
      addSelectorParameter b64 parse ⟨some q, some q64raw⟩ = sel)
    ∧ (∀ (b64 : String → Option String) (parse : String → Option Val)
        (q₁ q₂ q64raw : String),
      addSelectorParameter b64 parse ⟨some q₁, some q64raw⟩ =
        addSelectorParameter b64 parse ⟨some q₂, some q64raw⟩)
    ∧ (∀ (b64 : String → Option String) (parse : String → Option Val)
        (q : String) (sel : Val),
      parse q = some sel →
      addSelectorParameter b64 parse ⟨some q, none⟩ = sel)
    ∧ (∀ (b64 : String → Option String) (parse : String → Option Val)
        (args : QueryArgs),
      (∀ s, args.q64 = some s → (b64 s).bind parse = none) →
      (∀ s, args.q = some s → parse s = none) →
      addSelectorParameter b64 parse args = .obj []) := by
  refine ⟨?_, ?_, ?_, ?_⟩
  · intro b64 parse q q64raw s sel hdec hparse
    simp [addSelectorParameter, hdec, hparse]
  · intro b64 parse q₁ q₂ q64raw
    rfl
  · intro b64 parse q sel hparse
    simp [addSelectorParameter, hparse]
  · intro b64 parse args h64 hq
    unfold addSelectorParameter
    cases h : args.q64 with
    | some s =>
      have hbp := h64 s h
      cases hd : b64 s with
      | none => simp [hd]
      | some t =>
        rw [hd] at hbp
        simp only [Option.some_bind] at hbp
        simp [hd, hbp]
    | none =>
      cases hqv : args.q with
      | some s => simp [hqv, hq s hqv]
      | none => simp [hqv]

/-- C8 witness: the theorem applied to concrete decode and parse
functions. -/
theorem c8_selector_q64_precedence_witness :
    addSelectorParameter (fun s => some (s ++ "!")) (fun s => some (.str s))
        ⟨some "ignored", some "abc"⟩ = .str "abc!"
    ∧ addSelectorParameter (fun _ => none) (fun s => some (.str s))
        ⟨some "qq", none⟩ = .str "qq"
    ∧ addSelectorParameter (fun _ => none) (fun _ => none)
        ⟨some "qq", some "zz"⟩ = .obj [] := by
  refine ⟨?_, ?_, ?_⟩
  · exact c8_selector_q64_precedence.1 (fun s => some (s ++ "!"))
      (fun s => some (.str s)) "ignored" "abc" "abc!" (.str "abc!") rfl rfl
  · exact c8_selector_q64_precedence.2.2.1 (fun _ => none)
      (fun s => some (.str s)) "qq" (.str "qq") rfl
  · exact c8_selector_q64_precedence.2.2.2 (fun _ => none) (fun _ => none)
      ⟨some "qq", some "zz"⟩ (fun s hs => rfl) (fun s hs => rfl)

/-- Downloads are started in list order: the started files are a prefix of
the file list. -/
theorem downloadNextFile_starts_in_order (files : List RemoteFile) :
    (downloadNextFile files).1 <+: files.map RemoteFile.name := by
  induction files with
  | nil => exact ⟨[], rfl⟩
  | cons f fs ih =>
    cases hres : f.result with
    | ok u =>
      cases u
      obtain ⟨t, ht⟩ := ih
      refine ⟨t, ?_⟩
      simp only [downloadNextFile, hres, List.map_cons]
      rw [List.cons_append, ht]
    | error e =>
      refine ⟨fs.map RemoteFile.name, ?_⟩
      simp [downloadNextFile, hres]

/-- When every download succeeds, the loop starts them all and succeeds. -/
theorem downloadNextFile_all_ok {files : List RemoteFile}
    (h : ∀ g ∈ files, g.result = .ok ()) :
    downloadNextFile files = (files.map RemoteFile.name, .success, some (.ok ())) := by
  induction files with
  | nil => rfl
  | cons f fs ih =>
    have hf : f.result = .ok () := h f (by simp)
    have ihh := ih (fun g hg => h g (by simp [hg]))
    simp [downloadNextFile, hf, ihh]

/-- When the downloads up to some file succeed and that file fails, the
loop starts exactly the files up to it, the state fails and the error is
reported. -/
theorem downloadNextFile_fails {pre : List RemoteFile} {f : RemoteFile}
    (post : List RemoteFile) {e : String}
    (hpre : ∀ g ∈ pre, g.result = .ok ()) (hf : f.result = .error e) :
    downloadNextFile (pre ++ f :: post) =
      ((pre ++ [f]).map RemoteFile.name, .fail, some (.error e)) := by
  induction pre with
  | nil => simp [downloadNextFile, hf]
  | cons g gs ih =>
    have hg : g.result = .ok () := hpre g (by simp)
    have ihh := ih (fun g' hg' => hpre g' (by simp [hg']))
    simp [downloadNextFile, hg, ihh]

/-- C10: the sequential multi-file download starts downloads one at a time
in list order; a failure of file `f` stops the sequence (no later file is
started), fails the top OIP and errbacks the top deferred with the failure;
when all downloads succeed, every file got its sub-OIP appended in order
and the top OIP succeeds. -/
theorem c10_download_multiseq_sequential :
    (∀ files : List RemoteFile,
      (downloadMultiseqWithOip files).started <+: files.map RemoteFile.name
        ∧ (downloadMultiseqWithOip files).subOips =
            (downloadMultiseqWithOip files).started)
    ∧ (∀ (pre : List RemoteFile) (f : RemoteFile) (post : List RemoteFile) (e : String),
      (∀ g ∈ pre, g.result = .ok ()) → f.result = .error e →
      downloadMultiseqWithOip (pre ++ f :: post) =
        { started := (pre ++ [f]).map RemoteFile.name,
          subOips := (pre ++ [f]).map RemoteFile.name,
          topState := .fail, topResult := some (.error e) })
    ∧ (∀ files : List RemoteFile,
      (∀ g ∈ files, g.result = .ok ()) →
      downloadMultiseqWithOip files =
        { started := files.map RemoteFile.name,
          subOips := files.map RemoteFile.name,
          topState := .success, topResult := some (.ok ()) }) := by
  refine ⟨?_, ?_, ?_⟩
  · intro files
    exact ⟨downloadNextFile_starts_in_order files, rfl⟩
  · intro pre f post e hpre hf
    simp [downloadMultiseqWithOip, downloadNextFile_fails post hpre hf]
  · intro files h
    simp [downloadMultiseqWithOip, downloadNextFile_all_ok h]

/-- C10 witness: the theorem applied to the concrete list where `a`
succeeds, `b` fails and `c` is never started. -/
theorem c10_download_multiseq_sequential_witness :
    downloadMultiseqWithOip [rfA, rfB, rfC] =
      { started := ["a", "b"], subOips := ["a", "b"],
        topState := .fail, topResult := some (.error "download failed") }
    ∧ downloadMultiseqWithOip [rfA] =
      { started := ["a"], subOips := ["a"],
        topState := .success, topResult := some (.ok ()) }
    ∧ (downloadMultiseqWithOip [rfA, rfB, rfC]).started <+:
        [rfA, rfB, rfC].map RemoteFile.name := by
  refine ⟨?_, ?_, ?_⟩
  · exact c10_download_multiseq_sequential.2.1 [rfA] rfB [rfC] "download failed"
      (by intro g hg; simp at hg; rw [hg]; rfl) rfl
  · exact c10_download_multiseq_sequential.2.2 [rfA]
      (by intro g hg; simp at hg; rw [hg]; rfl)
  · exact (c10_download_multiseq_sequential.1 [rfA, rfB, rfC]).1

/-- C5: updating an entity with a document equal to the stored one is a
no-op. `dev_update` with the retrieved document performs no deconfigure, no
configure and no collection write (empty action log); `cfg_update` with the
stored config performs no collection write and triggers no cascade. -/
theorem c5_update_with_unchanged_doc_is_noop :
    (∀ (retrieveDev retrieveCfg : String → Option Doc)
        (anyDeviceUsing : String → Bool) (configureIfPossible : Doc → Bool)
        (tenantUuid id : String) (old : Doc) (v : Val),
      getId old = some id → retrieveDev id = some old →
      lookup old "configured" = some v →
      devUpdate retrieveDev retrieveCfg anyDeviceUsing configureIfPossible
        tenantUuid old = .ok [])
    ∧ (∀ (pgGet : String → Option Plugin) (descendants : List String)
        (rawConfigs retrieveCfg : String → Option Doc) (c : Doc) (id : String)
        (devices : List Dev),
      lookup c "id" = some (.str id) → retrieveCfg id = some c →
      cfgUpdate pgGet descendants rawConfigs retrieveCfg c devices =
        .ok (devices.filter (isAffected (id :: descendants)), [])) := by
  constructor
  · intro retrieveDev retrieveCfg anyDeviceUsing configureIfPossible
      tenantUuid id old v hid hret hconf
    unfold devUpdate
    rw [hid]
    simp [hret, needsReconfiguration_self, hconf, setKey_self hconf,
      Val.beqFields_refl, Bind.bind, Except.bind]
  · intro pgGet descendants rawConfigs retrieveCfg c id devices hid hret
    unfold cfgUpdate
    rw [hid]
    simp [hret, Val.beqFields_refl]

/-- C9: the defaulting step applied after successful validation fills
`syslog_port` and `level` when syslog is enabled, `sip_registrar_ip` from
`sip_proxy_ip`, `sip_srtp_mode` and `sip_transport`; gives each line
`registrar_ip` from its `proxy_ip` and `auth_username` from its `username`;
makes `sip_lines`, `sccp_call_managers` and `funckeys` exist (empty when
absent); and never overwrites a present key (`sip_lines` itself keeps its
entries, each rewritten by the per-line defaults only). -/
theorem c9_set_defaults_raw_config (rc : Doc)
    (hvalid : checkRawConfigValidity rc = .ok ()) :
    (truthy (lookup rc "syslog_enabled") = true →
      lookup (setDefaultsRawConfig rc) "syslog_port" =
        some ((lookup rc "syslog_port").getD (.num 514))
      ∧ lookup (setDefaultsRawConfig rc) "level" =
        some ((lookup rc "level").getD (.str "warning")))
    ∧ (∀ w : Val, lookup rc "sip_registrar_ip" = none →
        lookup rc "sip_proxy_ip" = some w →
        lookup (setDefaultsRawConfig rc) "sip_registrar_ip" = some w)
    ∧ lookup (setDefaultsRawConfig rc) "sip_srtp_mode" =
        some ((lookup rc "sip_srtp_mode").getD (.str "disabled"))
    ∧ lookup (setDefaultsRawConfig rc) "sip_transport" =
        some ((lookup rc "sip_transport").getD (.str "udp"))
    ∧ (∀ lines : List (String × Val), lookup rc "sip_lines" = some (.obj lines) →
        lookup (setDefaultsRawConfig rc) "sip_lines" =
          some (.obj (lines.map (fun p => (p.1, mapLine p.2)))))
    ∧ (lookup rc "sip_lines" = none →
        lookup (setDefaultsRawConfig rc) "sip_lines" = some (.obj []))
    ∧ lookup (setDefaultsRawConfig rc) "sccp_call_managers" =
        some ((lookup rc "sccp_call_managers").getD (.obj []))
    ∧ lookup (setDefaultsRawConfig rc) "funckeys" =
        some ((lookup rc "funckeys").getD (.obj []))
    ∧ (∀ k : String, k ≠ "sip_lines" → (lookup rc k).isSome →
        lookup (setDefaultsRawConfig rc) k = lookup rc k)
    ∧ (∀ (line : List (String × Val)) (w : Val),
        lookup line "proxy_ip" = some w →
        lookup (setDefaultsLine line) "registrar_ip" =
          some ((lookup line "registrar_ip").getD w))
    ∧ (∀ (line : List (String × Val)) (u : Val),
        lookup line "username" = some u →
        lookup (setDefaultsLine line) "auth_username" =
          some ((lookup line "auth_username").getD u))
    ∧ (∀ (line : List (String × Val)) (k : String), (lookup line k).isSome →
        lookup (setDefaultsLine line) k = lookup line k) := by
  refine ⟨?_, ?_, ?_, ?_, ?_, ?_, ?_, ?_, ?_, ?_, ?_, ?_⟩
  · intro hc
    constructor
    · unfold setDefaultsRawConfig
      rw [lookup_setdefault_ne (by decide), lookup_setdefault_ne (by decide),
        lookup_sipLinesDefaults_ne (by decide), lookup_setdefault_ne (by decide),
        lookup_setdefault_ne (by decide), lookup_registrarDefault_ne (by decide)]
      unfold syslogDefaults
      rw [if_pos hc, lookup_setdefault_ne (by decide), lookup_setdefault_self]
    · unfold setDefaultsRawConfig
      rw [lookup_setdefault_ne (by decide), lookup_setdefault_ne (by decide),
        lookup_sipLinesDefaults_ne (by decide), lookup_setdefault_ne (by decide),
        lookup_setdefault_ne (by decide), lookup_registrarDefault_ne (by decide)]
      unfold syslogDefaults
      rw [if_pos hc, lookup_setdefault_self, lookup_setdefault_ne (by decide)]
  · intro w hnone hproxy
    unfold setDefaultsRawConfig
    rw [lookup_setdefault_ne (by decide), lookup_setdefault_ne (by decide),
      lookup_sipLinesDefaults_ne (by decide), lookup_setdefault_ne (by decide),
      lookup_setdefault_ne (by decide)]
    have hpsy : lookup (syslogDefaults rc) "sip_proxy_ip" = some w := by
      rw [lookup_syslogDefaults_ne (by decide) (by decide)]; exact hproxy
    have hsry : lookup (syslogDefaults rc) "sip_registrar_ip" = none := by
      rw [lookup_syslogDefaults_ne (by decide) (by decide)]; exact hnone
    unfold registrarDefault
    rw [hpsy]
    rw [lookup_setdefault_self, hsry]
    rfl
  · unfold setDefaultsRawConfig
    rw [lookup_setdefault_ne (by decide), lookup_setdefault_ne (by decide),
      lookup_sipLinesDefaults_ne (by decide), lookup_setdefault_ne (by decide),
      lookup_setdefault_self, lookup_registrarDefault_ne (by decide),
      lookup_syslogDefaults_ne (by decide) (by decide)]
  · unfold setDefaultsRawConfig
    rw [lookup_setdefault_ne (by decide), lookup_setdefault_ne (by decide),
      lookup_sipLinesDefaults_ne (by decide), lookup_setdefault_self,
      lookup_setdefault_ne (by decide), lookup_registrarDefault_ne (by decide),
      lookup_syslogDefaults_ne (by decide) (by decide)]
  · intro lines hv
    unfold setDefaultsRawConfig
    rw [lookup_setdefault_ne (by decide), lookup_setdefault_ne (by decide)]
    refine lookup_sipLinesDefaults_obj ?_
    rw [lookup_setdefault_ne (by decide), lookup_setdefault_ne (by decide),
      lookup_registrarDefault_ne (by decide),
      lookup_syslogDefaults_ne (by decide) (by decide)]
    exact hv
  · intro hv
    unfold setDefaultsRawConfig
    rw [lookup_setdefault_ne (by decide), lookup_setdefault_ne (by decide)]
    refine lookup_sipLinesDefaults_none ?_
    rw [lookup_setdefault_ne (by decide), lookup_setdefault_ne (by decide),
      lookup_registrarDefault_ne (by decide),
      lookup_syslogDefaults_ne (by decide) (by decide)]
    exact hv
  · unfold setDefaultsRawConfig
    rw [lookup_setdefault_ne (by decide), lookup_setdefault_self,
      lookup_sipLinesDefaults_ne (by decide), lookup_setdefault_ne (by decide),
      lookup_setdefault_ne (by decide), lookup_registrarDefault_ne (by decide),
      lookup_syslogDefaults_ne (by decide) (by decide)]
  · unfold setDefaultsRawConfig
    rw [lookup_setdefault_self, lookup_setdefault_ne (by decide),
      lookup_sipLinesDefaults_ne (by decide), lookup_setdefault_ne (by decide),
      lookup_setdefault_ne (by decide), lookup_registrarDefault_ne (by decide),
      lookup_syslogDefaults_ne (by decide) (by decide)]
  · intro k hk hp
    exact lookup_setDefaults_present hk hp
  · intro line w hw
    simp only [setDefaultsLine, hw]
    cases hu : lookup (setdefault line "registrar_ip" w) "username" with
    | some u =>
      simp only [hu]
      rw [lookup_setdefault_ne (by decide), lookup_setdefault_self]
    | none =>
      simp only [hu]
      rw [lookup_setdefault_self]
  · intro line u hu
    cases hv : lookup line "proxy_ip" with
    | none =>
      simp only [setDefaultsLine, hv, hu]
      rw [lookup_setdefault_self]
    | some w =>
      have hu1 : lookup (setdefault line "registrar_ip" w) "username" = some u := by
        rw [lookup_setdefault_ne (by decide)]; exact hu
      simp only [setDefaultsLine, hv, hu1]
      rw [lookup_setdefault_self, lookup_setdefault_ne (by decide)]
  · intro line k hp
    cases hv : lookup line "proxy_ip" with
    | none =>
      cases hu : lookup line "username" with
      | none => simp only [setDefaultsLine, hv, hu]
      | some u =>
        simp only [setDefaultsLine, hv, hu]
        exact lookup_setdefault_present hp "auth_username" u
    | some w =>
      have e1 := lookup_setdefault_present hp "registrar_ip" w
      have p1 : (lookup (setdefault line "registrar_ip" w) k).isSome := by
        rw [e1]; exact hp
      cases hu : lookup (setdefault line "registrar_ip" w) "username" with
      | none =>
        simp only [setDefaultsLine, hv, hu]
        exact e1
      | some u =>
        simp only [setDefaultsLine, hv, hu]
        rw [lookup_setdefault_present p1, e1]

/-- C9 witness: the theorem applied to a validated raw config with syslog
enabled, a site-wide proxy and one line. -/
theorem c9_set_defaults_raw_config_witness :
    checkRawConfigValidity rcFull = .ok ()
    ∧ truthy (lookup rcFull "syslog_enabled") = true
    ∧ lookup (setDefaultsRawConfig rcFull) "syslog_port" =
        some ((lookup rcFull "syslog_port").getD (.num 514))
    ∧ lookup (setDefaultsRawConfig rcFull) "sip_registrar_ip" =
        some (.str "10.0.0.3")
    ∧ lookup (setDefaultsRawConfig rcFull) "funckeys" =
        some ((lookup rcFull "funckeys").getD (.obj []))
    ∧ lookup (setDefaultsLine [("proxy_ip", .str "10.0.0.4"),
          ("username", .str "u1")]) "registrar_ip" =
        some ((lookup [("proxy_ip", .str "10.0.0.4"), ("username", .str "u1")]
          "registrar_ip").getD (.str "10.0.0.4")) := by
  refine ⟨rfl, rfl, ?_, ?_, ?_, ?_⟩
  · exact ((c9_set_defaults_raw_config rcFull rfl).1 rfl).1
  · exact (c9_set_defaults_raw_config rcFull rfl).2.1 (.str "10.0.0.3") rfl rfl
  · exact (c9_set_defaults_raw_config rcFull rfl).2.2.2.2.2.2.2.1
  · exact (c9_set_defaults_raw_config rcFull rfl).2.2.2.2.2.2.2.2.2.1
      [("proxy_ip", .str "10.0.0.4"), ("username", .str "u1")] (.str "10.0.0.4") rfl

/-- C6: the reader/writer lock prefers writers. While a writer is waiting
no read request (in particular none issued after that writer queued) is
granted before the writer runs: every read grant in the subsequent grant
log is preceded by the writer's grant. And when the active writer releases
with no writer queued, all currently-waiting readers are admitted together
in that single step. -/
theorem c6_rw_lock_writer_preference :
    (∀ (t : List LockEvent) (s : LockState) (w : Nat),
      (w, ReqKind.write) ∈ s.waiting →
      ∀ (i r : Nat), (lockRun s t).2.get? i = some (r, ReqKind.read) →
      ∃ j, j < i ∧ (lockRun s t).2.get? j = some (w, ReqKind.write))
    ∧ (∀ (s : LockState) (w : Nat),
      s.activeWriter = some w → s.activeReaders = [] →
      hasWaitingWriter s.waiting = false →
      lockStep s (.release w) =
        ({ activeReaders := s.waiting.map Prod.fst, activeWriter := none,
           waiting := [] }, s.waiting)) := by
  constructor
  · intro t s w hw i r hget
    exact lockRun_writer_first t s hw i r hget
  · intro s w hw hr hnw
    simp only [lockStep, hw, hr]
    simp only [List.erase_nil, beq_self_eq_true, if_true, List.isEmpty_nil,
      Bool.and_true]
    unfold wake
    simp [hnw]

/-- C6 witness: writer 1 and a later reader 2 wait behind active writer 0;
after both writers release, reader 2's grant comes after writer 1's; and a
writer releasing over a reader-only queue admits both readers at once. -/
theorem c6_rw_lock_writer_preference_witness :
    ((1, ReqKind.write) ∈ lockS0.waiting
      ∧ (lockRun lockS0 lockT0).2.get? 1 = some (2, ReqKind.read)
      ∧ ∃ j, j < 1 ∧ (lockRun lockS0 lockT0).2.get? j = some (1, ReqKind.write))
    ∧ lockStep ⟨[], some 0, [(1, .read), (2, .read)]⟩ (.release 0) =
        (⟨[1, 2], none, []⟩, [(1, .read), (2, .read)]) := by
  constructor
  · refine ⟨by simp [lockS0], rfl, ?_⟩
    exact c6_rw_lock_writer_preference.1 lockT0 lockS0 1 (by simp [lockS0]) 1 2 rfl
  · exact c6_rw_lock_writer_preference.2 ⟨[], some 0, [(1, .read), (2, .read)]⟩ 0
      rfl rfl rfl

/-- C5 witness: the theorem applied to a stored device document and a stored
config document, each updated with itself. -/
theorem c5_update_with_unchanged_doc_is_noop_witness :
    devUpdate (fun s => if s = "d1" then some devDocD1 else none) (fun _ => none)
      (fun _ => false) (fun _ => true) "t1" devDocD1 = .ok []
    ∧ cfgUpdate pgGetP [] (fun _ => none)
        (fun s => if s = "c1" then some cfgDocC1 else none) cfgDocC1 [] =
      .ok ([], []) := by
  exact ⟨c5_update_with_unchanged_doc_is_noop.1
          (fun s => if s = "d1" then some devDocD1 else none) (fun _ => none)
          (fun _ => false) (fun _ => true) "t1" "d1" devDocD1 (.bool true)
          rfl rfl rfl,
        c5_update_with_unchanged_doc_is_noop.2 pgGetP [] (fun _ => none)
          (fun s => if s = "c1" then some cfgDocC1 else none) cfgDocC1 "c1" []
          rfl rfl⟩

end Provd
